import Mathlib

/-!
Shallow embedding of the `useGaitMetrics` data-acquisition hook of the
gait-monitoring dashboard (source: `src/unnamed/part_001`, latest revision,
together with the endpoint configuration in `src/src/lib/apiConfig.ts` /
`src/unnamed/part_000`).

The embedding covers: the payload normalizer (`gaitEntry` object literal),
the rolling history buffer (`historicalData.current.unshift` / `pop`), the
historical backfill handler (`fetchHistoricalData`), the websocket message
handler (`ws.onmessage`), the reconnect scheduling of `ws.onclose`, the
aggregate scoring client (`fetchMLGaitScore`), and the streaming endpoint
resolver (`WS_URL`).

JavaScript numbers arriving through `JSON.parse` are modelled as rationals;
`new Date(x).getTime()` may additionally produce `NaN`, modelled by a
dedicated constructor.
-/

namespace GaitMetrics

/-- Value of an optional numeric field of a parsed JSON payload as the
JavaScript code observes it: absent (`undefined`), explicitly `null`, or a
finite number (JSON cannot encode `NaN`). -/
inductive JsVal where
  | undef
  | null
  | num (q : ℚ)
deriving DecidableEq, Repr

/-- JavaScript truthiness for `JsVal`: `undefined`, `null` and `0` are
falsy. -/
def JsVal.falsy : JsVal → Bool
  | .undef => true
  | .null => true
  | .num q => q == 0

/-- Embedding of the defaulting idiom `x || d` on a numeric field: a falsy
left operand (`undefined`, `null`, `0`) yields the default. -/
def jsOrNum : JsVal → ℚ → ℚ
  | .undef, d => d
  | .null, d => d
  | .num q, d => if q == 0 then d else q

/-- Resulting value of `new Date(x).getTime()`: a finite instant in
milliseconds since the epoch, or `NaN` for an invalid date. Either way it
is a defined value of the JavaScript number type. -/
inductive JsNumber where
  | fin (q : ℚ)
  | nan
deriving DecidableEq, Repr

/-- Raw `timestamp` strings as `new Date` can see them: the empty string
(falsy, so `t || Date.now()` discards it), a string that parses to the
instant `ms`, or a non-empty unparseable string (invalid date). -/
inductive TsStr where
  | empty
  | valid (ms : ℚ)
  | invalid
deriving DecidableEq, Repr

/-- Value of the optional `timestamp` field of a raw backend record. -/
inductive TsVal where
  | undef
  | str (s : TsStr)
deriving DecidableEq, Repr

/-- Embedding of `new Date(data.timestamp || Date.now()).getTime()`, where
`now` is the value `Date.now()` returns at normalization time: an absent or
empty (falsy) timestamp falls back to `now`; a parseable string yields its
instant; a non-empty unparseable string yields an invalid date, whose
`getTime()` is `NaN`. The call never throws. -/
def parseTimestamp (now : ℚ) : TsVal → JsNumber
  | .undef => .fin now
  | .str .empty => .fin now
  | .str (.valid ms) => .fin ms
  | .str .invalid => .nan

/-- Raw backend record (`BackendGaitItem`): every field optional. -/
structure BackendGaitItem where
  cadence : JsVal := .undef
  equilibrium : JsVal := .undef
  frequency : JsVal := .undef
  kneeForce : JsVal := .undef
  posturalSway : JsVal := .undef
  stepCount : JsVal := .undef
  strideLength : JsVal := .undef
  timestamp : TsVal := .undef
  walkingSpeed : JsVal := .undef
deriving DecidableEq, Repr

/-- Canonical measurement record (`GaitDataEntry`) as the hook constructs
it. -/
structure GaitDataEntry where
  cadence : ℚ
  equilibriumScore : ℚ
  frequency : ℚ
  posturalSway : ℚ
  sensors : List ℚ
  stepWidth : ℚ
  steps : ℚ
  strideLength : ℚ
  kneeForce : ℚ
  timestamp : JsNumber
  walkingSpeed : ℚ
deriving DecidableEq, Repr

/-- Embedding of the payload normalizer: the `gaitEntry` object literal
built in `ws.onmessage`, which coincides field for field with the mapping
applied to each historical item in `fetchHistoricalData`. -/
def gaitEntry (now : ℚ) (data : BackendGaitItem) : GaitDataEntry where
  cadence := jsOrNum data.cadence 0
  equilibriumScore := jsOrNum data.equilibrium 0
  frequency := jsOrNum data.frequency 0
  posturalSway := jsOrNum data.posturalSway 0
  sensors := []
  stepWidth := 0
  steps := jsOrNum data.stepCount 0
  strideLength := jsOrNum data.strideLength 0
  kneeForce := jsOrNum data.kneeForce 0
  timestamp := parseTimestamp now data.timestamp
  walkingSpeed := jsOrNum data.walkingSpeed 0

/-- View of one field of a produced record as a JavaScript value, used to
state definedness: `undefined`, `null`, a number (possibly `NaN`), or an
array. -/
inductive FieldVal where
  | undefinedF
  | nullF
  | numberF (x : JsNumber)
  | arrayF (l : List ℚ)
deriving DecidableEq, Repr

/-- A field value is defined when it is neither `undefined` nor `null`. -/
def FieldVal.isDefined : FieldVal → Bool
  | .undefinedF => false
  | .nullF => false
  | .numberF _ => true
  | .arrayF _ => true

/-- All eleven fields of a canonical record, viewed as JavaScript values. -/
def entryFields (e : GaitDataEntry) : List FieldVal :=
  [.numberF (.fin e.cadence), .numberF (.fin e.equilibriumScore),
   .numberF (.fin e.frequency), .numberF (.fin e.posturalSway),
   .arrayF e.sensors, .numberF (.fin e.stepWidth), .numberF (.fin e.steps),
   .numberF (.fin e.strideLength), .numberF (.fin e.kneeForce),
   .numberF e.timestamp, .numberF (.fin e.walkingSpeed)]

/-- Embedding of the buffer mutation in `ws.onmessage`:
`historicalData.current.unshift(gaitEntry)` followed by
`if (historicalData.current.length > 20) historicalData.current.pop()`. -/
def prepend (e : GaitDataEntry) (buf : List GaitDataEntry) :
    List GaitDataEntry :=
  let buf1 := e :: buf
  if buf1.length > 20 then buf1.dropLast else buf1

/-- Buffer obtained by running the `ws.onmessage` telemetry path on each
message of `msgs` in order, starting from the empty buffer. -/
def applyStream (now : ℚ) (msgs : List BackendGaitItem) :
    List GaitDataEntry :=
  msgs.foldl (fun buf m => prepend (gaitEntry now m) buf) []

/-- Kinds of `Error` objects the hook can store in its `error` field. -/
inductive ErrKind where
  | config
  | wsFailed
  | fetchFailed
deriving DecidableEq, Repr

/-- Composite state exposed to the consumer (`GaitMetricsState`), without
the scoring result, which the scoring client writes separately. -/
structure GaitMetricsState where
  data : Option (List GaitDataEntry)
  loading : Bool
  error : Option ErrKind
  isConnected : Bool
deriving DecidableEq, Repr

/-- Initial composite state passed to `useState`. -/
def initialState : GaitMetricsState where
  data := none
  loading := true
  error := none
  isConnected := false

/-- Parsed inbound websocket payload: a handshake (an object with a `type`
property equal to `'connection'`) or any other parsed value, which the
handler reads as a `BackendGaitItem`. -/
inductive ParsedMsg where
  | handshake
  | telemetry (raw : BackendGaitItem)
deriving DecidableEq, Repr

/-- Inbound websocket event payload: text on which `JSON.parse` throws, or
a parsed value. -/
inductive WsMessage where
  | malformed
  | parsed (m : ParsedMsg)
deriving DecidableEq, Repr

/-- Embedding of the `ws.onmessage` handler: given the current composite
state and buffer, produce the state and buffer after the handler returns.
A malformed payload is caught and logged; a handshake is logged and
dropped; telemetry is normalized, prepended to the buffer, and published
with the loading flag cleared. The handler contains no socket operation
(it never closes the connection) and never writes `error` or
`isConnected`. -/
def onMessage (now : ℚ) (msg : WsMessage) (s : GaitMetricsState)
    (buf : List GaitDataEntry) : GaitMetricsState × List GaitDataEntry :=
  match msg with
  | .malformed => (s, buf)
  | .parsed .handshake => (s, buf)
  | .parsed (.telemetry raw) =>
      let buf1 := prepend (gaitEntry now raw) buf
      ({ s with data := some buf1, loading := false }, buf1)

/-- Parsed body of the historical response: `{ success, data? }`. -/
structure HistoricalResult where
  success : Bool
  data : Option (List BackendGaitItem)
deriving DecidableEq, Repr

/-- Outcome of `fetch` plus `response.json()` for the historical request:
a 2xx response with a parsed body, a non-2xx response (`response.ok` is
false, the body is never read and nothing throws), or a thrown transport
or parse error. -/
inductive FetchOutcome where
  | ok (result : HistoricalResult)
  | httpError
  | failure
deriving DecidableEq, Repr

/-- Embedding of `Array.prototype.slice(-20)`: the last twenty elements of
the array, or the whole array when it is shorter. -/
def sliceLast20 (l : List GaitDataEntry) : List GaitDataEntry :=
  l.drop (l.length - 20)

/-- Embedding of the `fetchHistoricalData` handler body up to (not
including) the trailing scoring call: given the fetch outcome, the prior
composite state and the prior buffer, produce the state and buffer after
the handler runs. On `success && data` the items are mapped through the
normalizer, reversed to latest-first, and cut with `slice(-20)`; otherwise
on a 2xx body the buffer is emptied; a non-2xx response falls through the
`if (response.ok)` guard with no state change; a thrown error is recorded
together with an emptied buffer. -/
def fetchHistoricalData (now : ℚ) (outcome : FetchOutcome)
    (s : GaitMetricsState) (buf : List GaitDataEntry) :
    GaitMetricsState × List GaitDataEntry :=
  match outcome with
  | .ok result =>
      match result.success, result.data with
      | true, some items =>
          let mappedData := (items.map (gaitEntry now)).reverse
          let newBuf := sliceLast20 mappedData
          ({ s with data := some newBuf, loading := false }, newBuf)
      | _, _ => ({ s with data := some [], loading := false }, [])
  | .httpError => (s, buf)
  | .failure =>
      ({ s with error := some .fetchFailed, data := some [],
                loading := false }, [])

/-- State of the live-connection manager relevant to reconnection: the
delays (in milliseconds) of the pending `setTimeout(connectWebSocket, _)`
timers, whether a socket exists that has not yet fired its `close` event,
and the connectivity flag of the composite state. -/
structure ConnState where
  pendingDelays : List ℕ
  socketLive : Bool
  isConnected : Bool
deriving DecidableEq, Repr

/-- State right after the initial `connectWebSocket()` call of the mount
effect: one live socket, no pending reconnect timer. -/
def connInit : ConnState where
  pendingDelays := []
  socketLive := true
  isConnected := false

/-- Transitions of the live-connection manager. A websocket fires `close`
at most once, so `close` requires a live socket; `ws.onclose` clears the
connectivity flag and schedules exactly one reconnect through
`setTimeout(connectWebSocket, 3000)`. `timerFire` consumes one pending
timer and runs `connectWebSocket`, creating a fresh socket. `sockOpen` is
`ws.onopen` on the live socket; `sockError` is `ws.onerror`, which touches
neither the timers nor the socket (it only records an error in the
composite state). -/
inductive ConnStep : ConnState → ConnState → Prop where
  | close (s : ConnState) (h : s.socketLive = true) :
      ConnStep s { pendingDelays := s.pendingDelays ++ [3000],
                   socketLive := false, isConnected := false }
  | timerFire (s : ConnState) (d : ℕ) (rest : List ℕ)
      (h : s.pendingDelays = d :: rest) :
      ConnStep s { pendingDelays := rest, socketLive := true,
                   isConnected := s.isConnected }
  | sockOpen (s : ConnState) (h : s.socketLive = true) :
      ConnStep s { s with isConnected := true }
  | sockError (s : ConnState) : ConnStep s s

/-- States of the connection manager reachable from `connInit`. -/
inductive ConnReachable : ConnState → Prop where
  | init : ConnReachable connInit
  | step {s t : ConnState} : ConnReachable s → ConnStep s t →
      ConnReachable t

/-- Fallback "average human gait" sample used by `fetchMLGaitScore` when
the buffer is empty; its timestamp is `Date.now()`. -/
def defaultGaitSample (now : ℚ) : GaitDataEntry where
  cadence := 100
  walkingSpeed := 12/10
  strideLength := 7/10
  equilibriumScore := 8/10
  frequency := 15/10
  posturalSway := 1/10
  kneeForce := 50
  timestamp := .fin now
  steps := 0
  stepWidth := 0
  sensors := []

/-- Per-feature average, `useData.reduce((sum, d) => sum + f(d), 0) /
useData.length`. -/
def avgBy (f : GaitDataEntry → ℚ) (l : List GaitDataEntry) : ℚ :=
  (l.map f).sum / l.length

/-- Feature vector `[avgCadence, avgWalkingSpeed, avgStrideLength,
avgEquilibrium, avgFrequency, avgPosturalSway, avgKneeForce]` submitted by
`fetchMLGaitScore`: averages over the buffer, or over the single fallback
sample when the buffer is empty. -/
def mlFeatures (now : ℚ) (data : List GaitDataEntry) : List ℚ :=
  let useData := if data.length > 0 then data else [defaultGaitSample now]
  [avgBy (fun d => d.cadence) useData,
   avgBy (fun d => d.walkingSpeed) useData,
   avgBy (fun d => d.strideLength) useData,
   avgBy (fun d => d.equilibriumScore) useData,
   avgBy (fun d => d.frequency) useData,
   avgBy (fun d => d.posturalSway) useData,
   avgBy (fun d => d.kneeForce) useData]

/-- Parsed body of the scoring response: `{ data? }` with an optional list
of result slots. -/
structure MLResponseBody where
  data : Option (List ℚ)
deriving DecidableEq, Repr

/-- Outcome of the scoring request: 2xx with a parsed body; non-2xx
(`!response.ok`, which the code turns into a thrown error); or a thrown
transport or parse error. -/
inductive MLFetchOutcome where
  | ok (body : MLResponseBody)
  | notOk
  | failure
deriving DecidableEq, Repr

/-- Scoring result (`MLGaitResult`). -/
structure MLGaitResult where
  score : ℚ
  confidence : ℚ
deriving DecidableEq, Repr

/-- Embedding of `result.data?.[i] || d`: the optional chain yields
`undefined` when `data` is absent or the slot is out of range, and `||`
additionally replaces a falsy (zero) slot value with the default. -/
def slotOr (data : Option (List ℚ)) (i : ℕ) (d : ℚ) : ℚ :=
  match data with
  | none => d
  | some l =>
      match l.get? i with
      | none => d
      | some v => if v == 0 then d else v

/-- Embedding of the result handling of `fetchMLGaitScore`: on a parsed
2xx body, score and confidence come from the first two result slots with
`|| 4` and `|| 0.85`; a non-2xx response throws and lands in the catch
block, which returns the fallback pair, as does any other thrown error. -/
def mlGaitScore (outcome : MLFetchOutcome) : MLGaitResult :=
  match outcome with
  | .ok body =>
      { score := slotOr body.data 0 4,
        confidence := slotOr body.data 1 (85/100) }
  | .notOk => { score := 4, confidence := 85/100 }
  | .failure => { score := 4, confidence := 85/100 }

/-- Embedding of the streaming endpoint resolver
`API_BASE.replace(/^https?:\/\//, API_BASE.startsWith('https://') ?
'wss://' : 'ws://')` at the character-list level: the anchored pattern
matches only a leading `http://` or `https://` (first match, at the start);
when the string starts with `https://` the replacement is `wss://`,
otherwise it is `ws://`; a string with no recognizable scheme is
unchanged. -/
def wsUrlData (s : List Char) : List Char :=
  if List.isPrefixOf "https://".data s then "wss://".data ++ s.drop 8
  else if List.isPrefixOf "http://".data s then "ws://".data ++ s.drop 7
  else s

/-- The resolver on strings: `WS_URL` as computed from `API_BASE`. -/
def wsUrl (apiBase : String) : String := String.mk (wsUrlData apiBase.data)

/-- A historical item that carries only a timestamp string of value `q`. -/
def tsItem (q : ℚ) : BackendGaitItem := { timestamp := .str (.valid q) }

/-- A historical fetch result of 25 records ordered oldest-first, with
timestamps 1 (oldest) through 25 (most recent). -/
def histSample25 : List BackendGaitItem :=
  [tsItem 1, tsItem 2, tsItem 3, tsItem 4, tsItem 5, tsItem 6, tsItem 7,
   tsItem 8, tsItem 9, tsItem 10, tsItem 11, tsItem 12, tsItem 13,
   tsItem 14, tsItem 15, tsItem 16, tsItem 17, tsItem 18, tsItem 19,
   tsItem 20, tsItem 21, tsItem 22, tsItem 23, tsItem 24, tsItem 25]

/-- Invariant of the connection manager: one pending reconnect timer or
one live socket, never both and never more, and every pending timer has
the fixed 3000 ms delay. -/
def connInv (s : ConnState) : Prop :=
  s.pendingDelays.length + (if s.socketLive then 1 else 0) = 1 ∧
  ∀ d ∈ s.pendingDelays, d = 3000

lemma jsOrNum_eq_zero_of_falsy (v : JsVal) (h : v.falsy = true) :
    jsOrNum v 0 = 0 := by
  cases v with
  | undef => rfl
  | null => rfl
  | num q => simp [JsVal.falsy] at h; simp [jsOrNum, h]

lemma prepend_length_le (e : GaitDataEntry) (buf : List GaitDataEntry)
    (h : buf.length ≤ 20) : (prepend e buf).length ≤ 20 := by
  show (if (e :: buf).length > 20 then (e :: buf).dropLast
        else (e :: buf)).length ≤ 20
  by_cases h1 : (e :: buf).length > 20
  · rw [if_pos h1]; simpa using h
  · rw [if_neg h1]; simp only [List.length_cons] at h1 ⊢; omega

lemma foldl_prepend_length (now : ℚ) (msgs : List BackendGaitItem) :
    ∀ start : List GaitDataEntry, start.length ≤ 20 →
      (msgs.foldl (fun buf m => prepend (gaitEntry now m) buf) start).length
        ≤ 20 := by
  induction msgs with
  | nil => intro start h; simpa using h
  | cons m ms ih =>
      intro start h
      simp only [List.foldl_cons]
      exact ih _ (prepend_length_le _ _ h)

lemma applyStream_length_le (now : ℚ) (msgs : List BackendGaitItem) :
    (applyStream now msgs).length ≤ 20 :=
  foldl_prepend_length now msgs [] (by simp)

lemma prepend_eq (e : GaitDataEntry) (buf : List GaitDataEntry)
    (h : buf.length ≤ 20) :
    prepend e buf =
      e :: (if buf.length = 20 then buf.dropLast else buf) := by
  show (if (e :: buf).length > 20 then (e :: buf).dropLast else (e :: buf)) =
    e :: (if buf.length = 20 then buf.dropLast else buf)
  by_cases h20 : buf.length = 20
  · cases buf with
    | nil => simp at h20
    | cons b bs =>
        simp only [List.length_cons] at h20 ⊢
        rw [if_pos (by omega), if_pos (by omega)]
        simp [List.dropLast]
  · rw [if_neg (by simp only [List.length_cons]; omega), if_neg h20]

lemma connInv_init : connInv connInit := by
  simp [connInv, connInit]

lemma connInv_step {s t : ConnState} (hs : connInv s) (st : ConnStep s t) :
    connInv t := by
  obtain ⟨h1, h2⟩ := hs
  cases st with
  | close h =>
      rw [h] at h1
      have h0 : s.pendingDelays = [] := by
        simp at h1
        exact h1
      constructor
      · simp [h0]
      · intro d hd
        rw [h0] at hd
        simpa using hd
  | timerFire d rest h =>
      rw [h] at h1
      have hrest : rest = [] := by
        cases hsl : s.socketLive with
        | true => rw [hsl] at h1; simp only [List.length_cons, if_pos] at h1; omega
        | false =>
            rw [hsl] at h1
            simp only [List.length_cons, Bool.false_eq_true, if_false] at h1
            simpa using h1
      subst hrest
      constructor
      · simp
      · intro x hx
        simp at hx
  | sockOpen h => exact ⟨h1, h2⟩
  | sockError => exact ⟨h1, h2⟩

lemma connReachable_inv {s : ConnState} (hr : ConnReachable s) :
    connInv s := by
  induction hr with
  | init => exact connInv_init
  | step _ st ih => exact connInv_step ih st

lemma connInv_length_le {s : ConnState} (h : connInv s) :
    s.pendingDelays.length ≤ 1 := by
  obtain ⟨h1, _⟩ := h
  by_cases hl : s.socketLive
  · rw [if_pos hl] at h1; omega
  · rw [if_neg hl] at h1; omega

lemma slotOr_eq_filter (data : Option (List ℚ)) (i : ℕ) (d : ℚ) :
    slotOr data i d =
      ((data.bind fun l => l.get? i).filter fun v => v != 0).getD d := by
  cases data with
  | none => rfl
  | some l =>
      cases hg : l.get? i with
      | none =>
          simp only [List.get?_eq_getElem?] at hg
          simp [slotOr, hg, Option.filter]
      | some v =>
          simp only [List.get?_eq_getElem?] at hg
          by_cases hv : v = 0
          · simp [slotOr, hg, hv, Option.filter]
          · simp [slotOr, hg, hv, Option.filter]

/-- C1: the source applies `slice(-20)` after `reverse()`, so a historical
fetch of 25 oldest-first records (timestamps 1..25) installs as the buffer
the 20 oldest records (timestamps 20 down to 1), not the 20 most recent
(25 down to 6) that the specification promises. This theorem evaluates the
embedded handler at that failing input. -/
theorem backfill_25_installs_oldest_20 :
    ((fetchHistoricalData 0
        (.ok { success := true, data := some histSample25 })
        initialState []).2).map (fun e => e.timestamp) =
      [.fin 20, .fin 19, .fin 18, .fin 17, .fin 16, .fin 15, .fin 14,
       .fin 13, .fin 12, .fin 11, .fin 10, .fin 9, .fin 8, .fin 7, .fin 6,
       .fin 5, .fin 4, .fin 3, .fin 2, .fin 1] ∧
    ¬ ((fetchHistoricalData 0
        (.ok { success := true, data := some histSample25 })
        initialState []).2).map (fun e => e.timestamp) =
      [.fin 25, .fin 24, .fin 23, .fin 22, .fin 21, .fin 20, .fin 19,
       .fin 18, .fin 17, .fin 16, .fin 15, .fin 14, .fin 13, .fin 12,
       .fin 11, .fin 10, .fin 9, .fin 8, .fin 7, .fin 6] := by
  constructor <;> decide

/-- C2 counterexample: on a non-2xx response (`response.ok` false) the
handler falls through its `if` with no state update, so the loading flag
stays set and a non-empty buffer is not emptied — refuting the claim that
every outcome clears the loading flag and that a non-success outcome
empties the buffer. -/
theorem backfill_non2xx_preserves_state :
    (fetchHistoricalData 0 .httpError initialState
        [defaultGaitSample 0]).1.loading = true ∧
    (fetchHistoricalData 0 .httpError initialState
        [defaultGaitSample 0]).2 = [defaultGaitSample 0] :=
  ⟨rfl, rfl⟩

/-- C2 (amended): for a parsed 2xx envelope the loading flag is cleared and
the error field is untouched, and when the envelope is not a success with
data the buffer is emptied and empty data published; on a thrown
transport/parse failure the loading flag is cleared, the buffer emptied,
empty data published and the error recorded; a non-2xx response changes
neither the state nor the buffer. -/
theorem backfill_outcome_effects (now : ℚ) (outcome : FetchOutcome)
    (s : GaitMetricsState) (buf : List GaitDataEntry) :
    (∀ result, outcome = .ok result →
      (fetchHistoricalData now outcome s buf).1.loading = false ∧
      (fetchHistoricalData now outcome s buf).1.error = s.error ∧
      (¬(result.success = true ∧ result.data.isSome = true) →
        (fetchHistoricalData now outcome s buf).1.data = some [] ∧
        (fetchHistoricalData now outcome s buf).2 = [])) ∧
    (outcome = .failure →
      (fetchHistoricalData now outcome s buf).1.loading = false ∧
      (fetchHistoricalData now outcome s buf).1.data = some [] ∧
      (fetchHistoricalData now outcome s buf).2 = [] ∧
      (fetchHistoricalData now outcome s buf).1.error = some .fetchFailed) ∧
    (outcome = .httpError → fetchHistoricalData now outcome s buf = (s, buf))
    := by
  refine ⟨?_, ?_, ?_⟩
  · rintro result rfl
    obtain ⟨succ, dat⟩ := result
    cases succ <;> rcases dat with _ | items <;> simp [fetchHistoricalData]
  · rintro rfl
    simp [fetchHistoricalData]
  · rintro rfl
    rfl

/-- C2 witness: the amended theorem applied to a concrete thrown-failure
outcome. -/
theorem backfill_outcome_effects_witness :
    (fetchHistoricalData 0 .failure initialState []).1.loading = false ∧
    (fetchHistoricalData 0 .failure initialState []).2 = [] :=
  ⟨((backfill_outcome_effects 0 .failure initialState []).2.1 rfl).1,
   ((backfill_outcome_effects 0 .failure initialState []).2.1 rfl).2.2.1⟩

/-- C3: starting from the empty buffer, after any sequence of accepted
telemetry messages the buffer length is at most 20, and the next accepted
message is prepended at index 0 with the previous records following in
order, the back element being dropped exactly when the buffer is full. -/
theorem streamBuffer_bounded_prepend_front (now : ℚ)
    (msgs : List BackendGaitItem) (m : BackendGaitItem) :
    (applyStream now msgs).length ≤ 20 ∧
    applyStream now (msgs ++ [m]) =
      gaitEntry now m ::
        (if (applyStream now msgs).length = 20
         then (applyStream now msgs).dropLast
         else applyStream now msgs) ∧
    (applyStream now (msgs ++ [m])).head? = some (gaitEntry now m) := by
  have hlen := applyStream_length_le now msgs
  have happ : applyStream now (msgs ++ [m]) =
      prepend (gaitEntry now m) (applyStream now msgs) := by
    unfold applyStream
    rw [List.foldl_append]
    rfl
  refine ⟨hlen, ?_, ?_⟩
  · rw [happ, prepend_eq _ _ hlen]
  · rw [happ, prepend_eq _ _ hlen]
    rfl

/-- C4 counterexample: a response whose first result slot is present but
zero still yields the default score 4 (the `||` defaulting also fires on a
present falsy slot), refuting "defaulting exactly when the slot is
absent". The confidence slot is taken as sent. -/
theorem mlScore_zero_slot_defaulted :
    (mlGaitScore (.ok { data := some [0, 91/100] })).score = 4 ∧
    (mlGaitScore (.ok { data := some [0, 91/100] })).score ≠ 0 ∧
    (mlGaitScore (.ok { data := some [0, 91/100] })).confidence = 91/100
    := by
  norm_num [mlGaitScore, slotOr]

/-- C4 (amended): on a parsed 2xx body the returned pair takes the first
two result slots, defaulting to score 4 and confidence 0.85 when the
respective slot is absent or zero (falsy); on a non-2xx status or any
thrown failure the pair is exactly (4, 0.85); `{data:[7.2, 0.91]}` yields
`{score:7.2, confidence:0.91}`. -/
theorem mlScore_outcome_characterization (outcome : MLFetchOutcome) :
    (∀ body, outcome = .ok body →
      mlGaitScore outcome =
        { score :=
            ((body.data.bind fun l => l.get? 0).filter
              fun v => v != 0).getD 4,
          confidence :=
            ((body.data.bind fun l => l.get? 1).filter
              fun v => v != 0).getD (85/100) }) ∧
    (outcome = .notOk →
      mlGaitScore outcome = { score := 4, confidence := 85/100 }) ∧
    (outcome = .failure →
      mlGaitScore outcome = { score := 4, confidence := 85/100 }) ∧
    mlGaitScore (.ok { data := some [72/10, 91/100] }) =
      { score := 72/10, confidence := 91/100 } := by
  refine ⟨?_, fun h => by rw [h]; rfl, fun h => by rw [h]; rfl,
    by norm_num [mlGaitScore, slotOr]⟩
  rintro body rfl
  simp [mlGaitScore, slotOr_eq_filter]

/-- C4 witness: the amended theorem applied to a thrown failure. -/
theorem mlScore_outcome_characterization_witness :
    mlGaitScore .failure = { score := 4, confidence := 85/100 } :=
  (mlScore_outcome_characterization .failure).2.2.1 rfl

/-- C5: the resolver turns a leading `http://` into `ws://` and a leading
`https://` into `wss://`, leaving every character after the scheme
unchanged; in particular `http://host:5000` resolves to `ws://host:5000`
and `https://host` to `wss://host`. -/
theorem wsUrl_scheme_substitution (rest : String) :
    wsUrl ("http://" ++ rest) = "ws://" ++ rest ∧
    wsUrl ("https://" ++ rest) = "wss://" ++ rest ∧
    wsUrl "http://host:5000" = "ws://host:5000" ∧
    wsUrl "https://host" = "wss://host" := by
  obtain ⟨l⟩ := rest
  refine ⟨?_, ?_, by decide, by decide⟩
  · simp [wsUrl, wsUrlData, List.isPrefixOf, String.data]
    rfl
  · simp [wsUrl, wsUrlData, List.isPrefixOf, String.data]
    rfl

/-- C6: whenever a numeric field of the raw record is omitted
(`undefined`), `null`, or otherwise falsy (zero), the corresponding field
of the normalized record is exactly 0, and the sensors field is always the
empty sequence (the backend never sends sensor readings), as is the
hardcoded step width. -/
theorem gaitEntry_falsy_fields_zero (now : ℚ) (data : BackendGaitItem) :
    (data.cadence.falsy = true → (gaitEntry now data).cadence = 0) ∧
    (data.equilibrium.falsy = true →
      (gaitEntry now data).equilibriumScore = 0) ∧
    (data.frequency.falsy = true → (gaitEntry now data).frequency = 0) ∧
    (data.kneeForce.falsy = true → (gaitEntry now data).kneeForce = 0) ∧
    (data.posturalSway.falsy = true →
      (gaitEntry now data).posturalSway = 0) ∧
    (data.stepCount.falsy = true → (gaitEntry now data).steps = 0) ∧
    (data.strideLength.falsy = true →
      (gaitEntry now data).strideLength = 0) ∧
    (data.walkingSpeed.falsy = true →
      (gaitEntry now data).walkingSpeed = 0) ∧
    (gaitEntry now data).sensors = [] ∧
    (gaitEntry now data).stepWidth = 0 :=
  ⟨fun h => jsOrNum_eq_zero_of_falsy _ h,
   fun h => jsOrNum_eq_zero_of_falsy _ h,
   fun h => jsOrNum_eq_zero_of_falsy _ h,
   fun h => jsOrNum_eq_zero_of_falsy _ h,
   fun h => jsOrNum_eq_zero_of_falsy _ h,
   fun h => jsOrNum_eq_zero_of_falsy _ h,
   fun h => jsOrNum_eq_zero_of_falsy _ h,
   fun h => jsOrNum_eq_zero_of_falsy _ h,
   rfl, rfl⟩

/-- C6 witness: the defaulting theorem applied to a record with an absent
cadence, a null frequency, and a zero (falsy) walking speed. -/
theorem gaitEntry_falsy_fields_zero_witness :
    (gaitEntry 0 { frequency := .null, walkingSpeed := .num 0 }).cadence
      = 0 ∧
    (gaitEntry 0 { frequency := .null, walkingSpeed := .num 0 }).frequency
      = 0 ∧
    (gaitEntry 0 { frequency := .null,
                   walkingSpeed := .num 0 }).walkingSpeed = 0 ∧
    (gaitEntry 0 { frequency := .null, walkingSpeed := .num 0 }).sensors
      = [] :=
  ⟨(gaitEntry_falsy_fields_zero 0 _).1 rfl,
   (gaitEntry_falsy_fields_zero 0 _).2.2.1 rfl,
   (gaitEntry_falsy_fields_zero 0 _).2.2.2.2.2.2.2.1
     (by simp [JsVal.falsy]),
   (gaitEntry_falsy_fields_zero 0
     { frequency := .null, walkingSpeed := .num 0 }).2.2.2.2.2.2.2.2.1⟩

/-- C7: the normalizer is a total function (it cannot throw); every field
of the record it produces is a defined value — a number or an array, never
`undefined` or `null` — for every raw input, including a present but
unparseable timestamp, whose `getTime()` is the defined number `NaN`; an
absent timestamp yields the instant `Date.now()` read at normalization
time. -/
theorem gaitEntry_total_and_defined (now : ℚ) (data : BackendGaitItem) :
    (∀ v ∈ entryFields (gaitEntry now data), v.isDefined = true) ∧
    (data.timestamp = .undef →
      (gaitEntry now data).timestamp = .fin now) ∧
    (data.timestamp = .str .invalid →
      (gaitEntry now data).timestamp = .nan) := by
  refine ⟨?_, ?_, ?_⟩
  · intro v hv
    simp only [entryFields, List.mem_cons, List.not_mem_nil,
      or_false] at hv
    rcases hv with rfl|rfl|rfl|rfl|rfl|rfl|rfl|rfl|rfl|rfl|rfl <;> rfl
  · intro h
    simp [gaitEntry, parseTimestamp, h]
  · intro h
    simp [gaitEntry, parseTimestamp, h]

/-- C7 witness: the totality theorem applied to the empty record and to a
record carrying a malformed timestamp. -/
theorem gaitEntry_total_and_defined_witness :
    FieldVal.isDefined (.numberF ((gaitEntry 0 {}).timestamp)) = true ∧
    (gaitEntry 0 {}).timestamp = .fin 0 ∧
    (gaitEntry 0 { timestamp := .str .invalid }).timestamp = .nan :=
  ⟨(gaitEntry_total_and_defined 0 {}).1 _ (by simp [entryFields]),
   (gaitEntry_total_and_defined 0 {}).2.1 rfl,
   (gaitEntry_total_and_defined 0 { timestamp := .str .invalid }).2.2 rfl⟩

/-- C8: a handshake message (`type === 'connection'`) and a non-parseable
payload both leave the published data, the loading flag, the error field,
the connectivity flag and the buffer unchanged; the handler body contains
no socket operation, so the connection is untouched as well. -/
theorem onMessage_handshake_malformed_noop (now : ℚ)
    (s : GaitMetricsState) (buf : List GaitDataEntry) (msg : WsMessage)
    (h : msg = .malformed ∨ msg = .parsed .handshake) :
    onMessage now msg s buf = (s, buf) := by
  rcases h with rfl | rfl <;> rfl

/-- C8 witness: the frame theorem applied to a malformed payload and to a
handshake message in the initial state. -/
theorem onMessage_handshake_malformed_noop_witness :
    onMessage 0 .malformed initialState [] = (initialState, []) ∧
    onMessage 0 (.parsed .handshake) initialState [] =
      (initialState, []) :=
  ⟨onMessage_handshake_malformed_noop 0 initialState [] .malformed
     (Or.inl rfl),
   onMessage_handshake_malformed_noop 0 initialState []
     (.parsed .handshake) (Or.inr rfl)⟩

/-- C9: in every reachable state of the connection manager there is at most
one pending reconnect timer, every pending timer has the fixed 3000 ms
delay, every transition preserves this, and from a state with a live
socket the close handler clears the connectivity flag and leaves exactly
one pending 3000 ms reconnect attempt. -/
theorem onclose_reconnect_single_timer (s : ConnState)
    (hr : ConnReachable s) :
    (s.pendingDelays.length ≤ 1 ∧ ∀ d ∈ s.pendingDelays, d = 3000) ∧
    (∀ t, ConnStep s t →
      t.pendingDelays.length ≤ 1 ∧ ∀ d ∈ t.pendingDelays, d = 3000) ∧
    (s.socketLive = true →
      s.pendingDelays = [] ∧
      ConnStep s { pendingDelays := [3000], socketLive := false,
                   isConnected := false }) := by
  have hinv := connReachable_inv hr
  refine ⟨⟨connInv_length_le hinv, hinv.2⟩, ?_, ?_⟩
  · intro t st
    have hinvt := connInv_step hinv st
    exact ⟨connInv_length_le hinvt, hinvt.2⟩
  · intro hlive
    obtain ⟨h1, _⟩ := hinv
    rw [if_pos hlive] at h1
    have h0 : s.pendingDelays = [] := by
      have : s.pendingDelays.length = 0 := by omega
      simpa using this
    refine ⟨h0, ?_⟩
    simpa [h0] using ConnStep.close s hlive

/-- C9 witness: the timer theorem applied to the initial reachable state,
whose socket is live. -/
theorem onclose_reconnect_single_timer_witness :
    connInit.pendingDelays.length ≤ 1 ∧
    ConnStep connInit { pendingDelays := [3000], socketLive := false,
                        isConnected := false } :=
  ⟨(onclose_reconnect_single_timer connInit .init).1.1,
   ((onclose_reconnect_single_timer connInit .init).2.2 rfl).2⟩

/-- C10: with an empty buffer the scoring client submits exactly the
fallback sample's feature vector
`[100, 1.2, 0.7, 0.8, 1.5, 0.1, 50]` (cadence, walking speed, stride
length, equilibrium score, frequency, postural sway, knee force), and for
a non-empty buffer each submitted feature is the sum of that feature over
the records divided by their number. -/
theorem mlFeatures_fallback_and_means (now : ℚ)
    (data : List GaitDataEntry) :
    mlFeatures now [] = [100, 12/10, 7/10, 8/10, 15/10, 1/10, 50] ∧
    (data ≠ [] →
      mlFeatures now data =
        [(data.map fun d => d.cadence).sum / data.length,
         (data.map fun d => d.walkingSpeed).sum / data.length,
         (data.map fun d => d.strideLength).sum / data.length,
         (data.map fun d => d.equilibriumScore).sum / data.length,
         (data.map fun d => d.frequency).sum / data.length,
         (data.map fun d => d.posturalSway).sum / data.length,
         (data.map fun d => d.kneeForce).sum / data.length]) := by
  constructor
  · simp [mlFeatures, avgBy, defaultGaitSample]
  · intro h
    have hpos : data.length > 0 := List.length_pos.mpr h
    simp [mlFeatures, avgBy, hpos]

/-- C10 witness: the averaging theorem applied to the singleton buffer
holding the fallback sample. -/
theorem mlFeatures_fallback_and_means_witness :
    mlFeatures 0 [defaultGaitSample 0] =
      [([defaultGaitSample 0].map fun d => d.cadence).sum
         / ([defaultGaitSample 0] : List GaitDataEntry).length,
       ([defaultGaitSample 0].map fun d => d.walkingSpeed).sum
         / ([defaultGaitSample 0] : List GaitDataEntry).length,
       ([defaultGaitSample 0].map fun d => d.strideLength).sum
         / ([defaultGaitSample 0] : List GaitDataEntry).length,
       ([defaultGaitSample 0].map fun d => d.equilibriumScore).sum
         / ([defaultGaitSample 0] : List GaitDataEntry).length,
       ([defaultGaitSample 0].map fun d => d.frequency).sum
         / ([defaultGaitSample 0] : List GaitDataEntry).length,
       ([defaultGaitSample 0].map fun d => d.posturalSway).sum
         / ([defaultGaitSample 0] : List GaitDataEntry).length,
       ([defaultGaitSample 0].map fun d => d.kneeForce).sum
         / ([defaultGaitSample 0] : List GaitDataEntry).length] :=
  (mlFeatures_fallback_and_means 0 [defaultGaitSample 0]).2 (by simp)

end GaitMetrics
